import Mathlib

/-!
# Verification of the Sinhala O/L math question-generation core

Shallow embedding of the prompt-orchestration / response-parsing engine of
the repository (files `app/models/model_paper_generator.py`,
`app/models/rag_model.py`, `apis/api.py`), together with proofs of the
spec claims about it.

Strings are modelled as `List Char` (Python `str` is a sequence of code
points, and all operations used by the code — slicing, `strip`, `split`,
substring search — are code-point based).  Machine-level effects that the
claims do not touch (wall-clock time, logging, the network call itself)
are abstracted: each loop iteration's interaction with the generation
client is an explicit `GenOutcome` value, and the file system is an
explicit environment record.
-/

/-- Python strings as lists of code points. -/
abbrev Str := List Char

namespace PyStr

/-- The characters removed by Python's `str.strip()` with no argument. -/
def isPySpace (c : Char) : Bool :=
  c = ' ' || c = '\t' || c = '\n' || c = '\r' || c = '\x0b' || c = '\x0c'

/-- Python `s.strip()`. -/
def strip (s : Str) : Str :=
  ((s.dropWhile isPySpace).reverse.dropWhile isPySpace).reverse

/-- Python `s.lstrip('-')`. -/
def lstripDash (s : Str) : Str := s.dropWhile (· = '-')

/-- Python `sub in s` (substring containment) for a character. -/
def containsChar (c : Char) (s : Str) : Bool := s.any (· = c)

/-- First index at which `pat` occurs in `s` (Python `s.find(pat)` for
nonempty `pat`), as an `Option`. -/
def findSub (pat : Str) : Str → Option Nat
  | [] => none
  | c :: rest =>
    if pat.isPrefixOf (c :: rest) then some 0
    else (findSub pat rest).map (· + 1)

/-- Python `pat in s` (substring containment). -/
def containsSub (pat s : Str) : Bool := (findSub pat s).isSome

/-- Python `s.split(sep)` for a nonempty separator `sep`:
leftmost, non-overlapping splits. -/
def splitOnSubFuel (sep : Str) : Nat → Str → List Str
  | 0, s => [s]
  | fuel + 1, s =>
    match findSub sep s with
    | none => [s]
    | some i => s.take i :: splitOnSubFuel sep fuel (s.drop (i + sep.length))

def splitOnSub (sep s : Str) : List Str := splitOnSubFuel sep (s.length + 1) s

/-- Python `s.split(c)` for a single-character separator (keeps empty parts). -/
def splitChar (c : Char) : Str → List Str
  | [] => [[]]
  | a :: rest =>
    let r := splitChar c rest
    if a = c then [] :: r
    else match r with
      | [] => [[a]]
      | h :: t => (a :: h) :: t

/-- Python `s.split(sep, 1)[0]` / `[1]` for a one-character separator that is
known to occur: the text before the first `c` and the text after it. -/
def splitFirst (c : Char) (s : Str) : Str × Str :=
  (s.takeWhile (· ≠ c), (s.dropWhile (· ≠ c)).drop 1)

/-- Python `int(...)` on a nonempty digit string. -/
def digitsToNat (ds : Str) : Nat :=
  ds.foldl (fun n c => 10 * n + (c.toNat - 48)) 0

end PyStr

open PyStr

/-! ## Step-line parsing (`model_paper_generator.py`)

All three shape parsers iterate over the lines of a STEPS block with
`line = line.strip().lstrip('-').strip()` and then split on the first
`'='`.  The short-answer parser (lines 319–336) additionally keeps a
line without `'='` as a step with empty value (`elif line:`); the
structured parser (lines 570–581) and the essay parser (lines 826–837)
have no such branch and drop those lines. -/

/-- An answer step: `{"description": ..., "value": ...}`. -/
structure Step where
  description : Str
  value : Str
deriving DecidableEq

/-- One line of a STEPS block, short-answer parser
(`_parse_short_answer_response`, lines 323–335). -/
def shortStepLine (line : Str) : List Step :=
  let l := strip (lstripDash (strip line))
  if containsChar '=' l then
    let p := splitFirst '=' l
    [⟨strip p.1, strip p.2⟩]
  else if l ≠ [] then [⟨l, []⟩]
  else []

/-- One line of a STEPS block, structured parser
(`_parse_structured_response`, lines 574–581): no `elif line` branch,
so a line without `'='` contributes nothing. -/
def structuredStepLine (line : Str) : List Step :=
  let l := strip (lstripDash (strip line))
  if containsChar '=' l then
    let p := splitFirst '=' l
    [⟨strip p.1, strip p.2⟩]
  else []

/-- One line of a STEPS block, essay parser
(`_parse_essay_response`, lines 830–837): textually identical to the
structured parser's loop. -/
def essayStepLine (line : Str) : List Step :=
  let l := strip (lstripDash (strip line))
  if containsChar '=' l then
    let p := splitFirst '=' l
    [⟨strip p.1, strip p.2⟩]
  else []

/-- `steps_match.group(1).strip().split('\n')` then the per-line loop,
short-answer parser. -/
def shortStepLines (block : Str) : List Step :=
  (splitChar '\n' (strip block)).foldl (fun acc l => acc ++ shortStepLine l) []

/-- Same block loop in the structured parser. -/
def structuredStepLines (block : Str) : List Step :=
  (splitChar '\n' (strip block)).foldl (fun acc l => acc ++ structuredStepLine l) []

/-- Same block loop in the essay parser. -/
def essayStepLines (block : Str) : List Step :=
  (splitChar '\n' (strip block)).foldl (fun acc l => acc ++ essayStepLine l) []

/-! ## Embedding of the `re` patterns used by the parsers

Each pattern of the source is embedded as a dedicated matching function
with the semantics Python's `re` module gives it on the pattern in
question (leftmost match, greedy `\s*` runs followed by a literal that
is never a whitespace character — hence deterministic — and lazy
`(.*?)` groups stopped by the earliest position where the trailing
lookahead matches).  `$` without `re.MULTILINE` matches at the end of
the string and just before a final trailing newline; `\Z` matches only
at the end. -/

namespace ReEmbed

/-- The lazy group `(.*?)` under `re.DOTALL`, stopped by the earliest
position where one of `stops` starts or where `$` (when `dollarNL` is
true) respectively `\Z` (when false) matches. -/
def upToStops (dollarNL : Bool) (stops : List Str) : Str → Str
  | [] => []
  | c :: rest =>
    if stops.any (fun st => st.isPrefixOf (c :: rest)) then []
    else if dollarNL && c = '\n' && rest = [] then []
    else c :: upToStops dollarNL stops rest

/-- `re.search(lit + r'\s*(\d+)', s)`: first occurrence of `lit` that is
followed (after greedy whitespace) by at least one digit. -/
def searchLitNat (lit : Str) : Str → Option Nat
  | [] => none
  | c :: rest =>
    if lit.isPrefixOf (c :: rest) then
      let t := (List.drop lit.length (c :: rest)).dropWhile isPySpace
      let ds := t.takeWhile Char.isDigit
      if ds ≠ [] then some (digitsToNat ds) else searchLitNat lit rest
    else searchLitNat lit rest

/-- `re.search(lit + r'\s*(.+?)(?:\n|$)', s)` without `re.DOTALL`, where
`lit` ranges over the given literal alternatives in preference order
(used for `TOPICS?:`): the group is the rest of the line after the
first matching literal and greedy whitespace.  (The degenerate
backtracking case in which everything after the literal is whitespace
running to the end of the string is treated as no match.) -/
def searchLitLine (lits : List Str) : Str → Option Str
  | [] => none
  | c :: rest =>
    match lits.find? (fun lit => lit.isPrefixOf (c :: rest)) with
    | some lit =>
      let t := (List.drop lit.length (c :: rest)).dropWhile isPySpace
      let g := t.takeWhile (· ≠ '\n')
      if g ≠ [] then some g else searchLitLine lits rest
    | none => searchLitLine lits rest

/-- `re.search(lit + r'\s*(.+?)(?=' + stops + r'|$)', s, re.DOTALL)`:
first occurrence of `lit` with a nonempty lazy group after greedy
whitespace, the group stopped at the earliest of the stop markers or
`$`. -/
def searchLitField (lit : Str) (stops : List Str) : Str → Option Str
  | [] => none
  | c :: rest =>
    if lit.isPrefixOf (c :: rest) then
      match (List.drop lit.length (c :: rest)).dropWhile isPySpace with
      | [] => searchLitField lit stops rest
      | d :: dr => some (d :: upToStops true stops dr)
    else searchLitField lit stops rest

/-- `re.search(lit + r'(.*?)(?=' + stops + r'|$)', s, re.DOTALL)`: lazy,
possibly empty group immediately after the first occurrence of `lit`
(used for the STEPS blocks). -/
def searchLitBlock (lit : Str) (stops : List Str) : Str → Option Str
  | [] => none
  | c :: rest =>
    if lit.isPrefixOf (c :: rest) then
      some (upToStops true stops (List.drop lit.length (c :: rest)))
    else searchLitBlock lit stops rest

/-- `re.findall(start + r'(.*?)' + stop, s, re.DOTALL)`: the regions
between consecutive non-overlapping `start`/`stop` marker pairs. -/
def findBetweenFuel (startM endM : Str) : Nat → Str → List Str
  | 0, _ => []
  | fuel + 1, s =>
    match findSub startM s with
    | none => []
    | some i =>
      let after := s.drop (i + startM.length)
      match findSub endM after with
      | none => []
      | some j => after.take j :: findBetweenFuel startM endM fuel (after.drop (j + endM.length))

def findBetween (startM endM s : Str) : List Str :=
  findBetweenFuel startM endM (s.length + 1) s

/-- `re.findall` driver: scan left to right; on a match continue after
its end, otherwise advance one position.  (All patterns below consume at
least one character, so fuel `|s| + 1` is enough.) -/
def reFindAllFuel (stepFn : Str → Option ((Str × Str × Str) × Str)) :
    Nat → Str → List (Str × Str × Str)
  | 0, _ => []
  | _ + 1, [] => []
  | fuel + 1, c :: rest =>
    match stepFn (c :: rest) with
    | some (g, rem) => g :: reFindAllFuel stepFn fuel rem
    | none => reFindAllFuel stepFn fuel rest

def reFindAll (stepFn : Str → Option ((Str × Str × Str) × Str)) (s : Str) :
    List (Str × Str × Str) :=
  reFindAllFuel stepFn (s.length + 1) s

/-- Character class `[අ-ඉa-e\d]` of the structured parser's primary
sub-question pattern. -/
def structLabelChar (c : Char) : Bool :=
  (decide ('අ' ≤ c) && decide (c ≤ 'ඉ')) ||
  (decide ('a' ≤ c) && decide (c ≤ 'e')) || c.isDigit

/-- Character class `[ivxIVX\d]` of the essay parser's sub-question
pattern. -/
def essayLabelChar (c : Char) : Bool :=
  "ivxIVX".data.contains c || c.isDigit

/-- Matcher for the structured parser's primary sub-question pattern
(line 555):
`SUB_QUESTION:\s*\(([අ-ඉa-e\d]+)\)\s*\nTEXT:\s*(.+?)(?=\nSTEPS:|$)(.*?)(?=\nSUB_QUESTION:|STRUCTURED_END|$)`
applied at the head of `s`.  Returns `((label, text, rest), remainder)`. -/
def matchStructPrimary (s : Str) : Option ((Str × Str × Str) × Str) :=
  if "SUB_QUESTION:".data.isPrefixOf s then
    let t := (s.drop 13).dropWhile isPySpace
    match t with
    | '(' :: t1 =>
      let label := t1.takeWhile structLabelChar
      if label = [] then none else
      match t1.drop label.length with
      | ')' :: t2 =>
        -- `\s*\n` then `TEXT:`: a whitespace run whose last character is
        -- a newline, immediately followed by the literal
        let w := t2.takeWhile isPySpace
        let t3 := t2.drop w.length
        if w ≠ [] && w.getLast? = some '\n' && "TEXT:".data.isPrefixOf t3 then
          match (t3.drop 5).dropWhile isPySpace with
          | [] => none
          | d :: dr =>
            let text := d :: upToStops true ["\nSTEPS:".data] dr
            let v := (d :: dr).drop text.length
            let rest := upToStops true ["\nSUB_QUESTION:".data, "STRUCTURED_END".data] v
            some ((label, text, rest), v.drop rest.length)
        else none
      | _ => none
    | _ => none
  else none

/-- The consumed alternation `(?:\n\s*STEPS:|ANSWER:)` of the looser
sub-question patterns: if it matches at the head of `s`, return the
remainder after it. -/
def altSteps (s : Str) : Option Str :=
  match s with
  | '\n' :: rest =>
    let t := rest.dropWhile isPySpace
    if "STEPS:".data.isPrefixOf t then some (t.drop 6)
    else if "ANSWER:".data.isPrefixOf s then some (s.drop 7) else none
  | _ =>
    if "ANSWER:".data.isPrefixOf s then some (s.drop 7) else none

/-- Lazy group `(.+?)` (at least one character) stopped by the consumed
alternation `(?:\n\s*STEPS:|ANSWER:)`; returns the group and the
remainder after the alternation. -/
def lazyUntilAlt : Str → Option (Str × Str)
  | [] => none
  | c :: rest =>
    match altSteps rest with
    | some rem => some ([c], rem)
    | none =>
      match lazyUntilAlt rest with
      | some (g, rem) => some (c :: g, rem)
      | none => none

/-- Shared tail of the looser sub-question patterns, after the optional
`(?:TEXT:\s*)?`: `(.+?)(?:\n\s*STEPS:|ANSWER:)(.*?)(?=SUB_QUESTION:|` end
marker `|---|\Z)`. -/
def matchSub2Tail (endMarker : Str) (label : Str) (u : Str) :
    Option ((Str × Str × Str) × Str) :=
  match lazyUntilAlt u with
  | none => none
  | some (text, rem) =>
    let rest := upToStops false ["SUB_QUESTION:".data, endMarker, "---".data] rem
    some ((label, text, rest), rem.drop rest.length)

/-- Matcher for the looser sub-question patterns — the structured
parser's fallback `sub_pattern2` (line 560, label class `[^)]+`, end
marker `STRUCTURED_END`) and the essay parser's `sub_pattern` (line 816,
label class `[ivxIVX\d]+`, end marker `ESSAY_END`):
`SUB_QUESTION:\s*\((label+)\)[^\n]*\n(?:TEXT:\s*)?(.+?)(?:\n\s*STEPS:|ANSWER:)(.*?)(?=SUB_QUESTION:|END|---|\Z)`. -/
def matchSub2 (labelChar : Char → Bool) (endMarker : Str) (s : Str) :
    Option ((Str × Str × Str) × Str) :=
  if "SUB_QUESTION:".data.isPrefixOf s then
    let t := (s.drop 13).dropWhile isPySpace
    match t with
    | '(' :: t1 =>
      let label := t1.takeWhile labelChar
      if label = [] then none else
      match t1.drop label.length with
      | ')' :: t2 =>
        -- `[^\n]*` then a literal newline
        let t3 := t2.dropWhile (· ≠ '\n')
        match t3 with
        | '\n' :: t4 =>
          -- greedy optional `(?:TEXT:\s*)?`, with backtracking to the
          -- unconsumed branch if the tail fails
          if "TEXT:".data.isPrefixOf t4 then
            match matchSub2Tail endMarker label ((t4.drop 5).dropWhile isPySpace) with
            | some r => some r
            | none => matchSub2Tail endMarker label t4
          else matchSub2Tail endMarker label t4
        | _ => none
      | _ => none
    | _ => none
  else none

end ReEmbed

open ReEmbed

/-! ## Parsed question records and the three shape parsers -/

/-- A parsed sub-question dict of the structured/essay parsers.  The
`answer` key is only set when the `ANSWER:` search succeeds, hence
`Option`. -/
structure SubQ where
  sub_question_label : Str
  sub_question : Str
  answer_steps : List Step
  answer : Option Str
deriving DecidableEq

/-- A parsed short-answer question dict (`_parse_short_answer_response`). -/
structure ShortQ where
  question_number : Nat
  topics : List Str
  question : Str
  answer_steps : List Step
  final_answer : Str
deriving DecidableEq

/-- A parsed structured or essay question dict: both parsers emit the
same keys (`question_number`, `topics`, `question`, `sub_questions`). -/
structure StructQ where
  question_number : Nat
  topics : List Str
  question : Str
  sub_questions : List SubQ
deriving DecidableEq

/-- The per-triple sub-question construction shared by the structured
parser (lines 563–589) and the essay parser (lines 819–845); they differ
only in the step-line loop passed in. -/
def buildSubQs (stepLines : Str → List Step) (triples : List (Str × Str × Str)) :
    List SubQ :=
  triples.foldl (fun sqs t =>
    let steps := match searchLitBlock "STEPS:".data ["ANSWER:".data, "SUB_QUESTION:".data] t.2.2 with
      | some b => stepLines b
      | none => []
    let ans := (searchLitLine ["ANSWER:".data] t.2.2).map strip
    let sq : SubQ := ⟨'(' :: (strip t.1 ++ [')']), strip t.2.1, steps, ans⟩
    if sq.sub_question ≠ [] then sqs ++ [sq] else sqs) []

/-- Field extraction of one region of `_parse_short_answer_response`
(lines 302–340); the default question number is one past the number of
questions accumulated so far. -/
def shortRegionQ (acc : Nat) (m : Str) : ShortQ :=
  let num := (searchLitNat "NUMBER:".data m).getD (acc + 1)
  let topics := match searchLitLine ["TOPIC:".data] m with
    | some t => [strip t]
    | none => []
  let question := match searchLitField "QUESTION:".data ["\nSTEPS:".data] m with
    | some q => strip q
    | none => []
  let steps := match searchLitBlock "STEPS:".data ["FINAL_ANSWER:".data] m with
    | some b => shortStepLines b
    | none => []
  let finalAns := match searchLitLine ["FINAL_ANSWER:".data] m with
    | some a => strip a
    | none => []
  ⟨num, topics, question, steps, finalAns⟩

/-- Per-region step of `_parse_short_answer_response`: append when the
validation gate `q_data['question'] and len(q_data['question']) > 10`
(line 342) passes. -/
def parseShortRegion (qs : List ShortQ) (m : Str) : List ShortQ :=
  if (shortRegionQ qs.length m).question ≠ [] ∧
      10 < (shortRegionQ qs.length m).question.length then
    qs ++ [shortRegionQ qs.length m]
  else qs

/-- `_parse_short_answer_response` (lines 287–349): regions between
`QUESTION_START`/`QUESTION_END`, falling back to splitting on `---` and
keeping parts containing `QUESTION:` or `NUMBER:`. -/
def parseShortAnswerResponse (text : Str) : List ShortQ :=
  let ms := findBetween "QUESTION_START".data "QUESTION_END".data text
  let ms := if ms = [] then
      (splitOnSub "---".data text).filter
        (fun p => containsSub "QUESTION:".data p || containsSub "NUMBER:".data p)
    else ms
  ms.foldl parseShortRegion []

/-- Field extraction of one region of `_parse_structured_response`
(lines 537–591). -/
def structRegionQ (acc : Nat) (m : Str) : StructQ :=
  let num := (searchLitNat "NUMBER:".data m).getD (acc + 1)
  let topics := match searchLitLine ["TOPIC:".data] m with
    | some t => [strip t]
    | none => []
  let question := match searchLitField "MAIN_CONTEXT:".data ["\nSUB_QUESTION:".data] m with
    | some q => strip q
    | none => []
  let subs := reFindAll matchStructPrimary m
  let subs := if subs = [] then
      reFindAll (matchSub2 (· ≠ ')') "STRUCTURED_END".data) m
    else subs
  ⟨num, topics, question, buildSubQs structuredStepLines subs⟩

/-- Per-region step of `_parse_structured_response`: append when the
validation gate `q_data['question'] and len(sub_questions) >= 2`
(line 594) passes. -/
def parseStructRegion (qs : List StructQ) (m : Str) : List StructQ :=
  if (structRegionQ qs.length m).question ≠ [] ∧
      2 ≤ (structRegionQ qs.length m).sub_questions.length then
    qs ++ [structRegionQ qs.length m]
  else qs

/-- `_parse_structured_response` (lines 522–603): regions between
`STRUCTURED_START`/`STRUCTURED_END`, falling back to splitting on `---`
and keeping parts containing `MAIN_CONTEXT:` or `SUB_QUESTION:`. -/
def parseStructuredResponse (text : Str) : List StructQ :=
  let ms := findBetween "STRUCTURED_START".data "STRUCTURED_END".data text
  let ms := if ms = [] then
      (splitOnSub "---".data text).filter
        (fun p => containsSub "MAIN_CONTEXT:".data p || containsSub "SUB_QUESTION:".data p)
    else ms
  ms.foldl parseStructRegion []

/-- Field extraction of one region of `_parse_essay_response`
(lines 794–847). -/
def essayRegionQ (acc : Nat) (m : Str) : StructQ :=
  let num := (searchLitNat "NUMBER:".data m).getD (acc + 1)
  let topics := match searchLitLine ["TOPICS:".data, "TOPIC:".data] m with
    | some ts => (splitChar ',' (strip ts)).map strip
    | none => []
  let question := match searchLitField "SCENARIO:".data ["\nSUB_QUESTION:".data] m with
    | some q => strip q
    | none => []
  let subs := reFindAll (matchSub2 essayLabelChar "ESSAY_END".data) m
  ⟨num, topics, question, buildSubQs essayStepLines subs⟩

/-- Per-region step of `_parse_essay_response`: append when the
validation gate `q_data['question'] and len(q_data['question']) > 50
and len(sub_questions) >= 3` (line 850) passes. -/
def parseEssayRegion (qs : List StructQ) (m : Str) : List StructQ :=
  if (essayRegionQ qs.length m).question ≠ [] ∧
      50 < (essayRegionQ qs.length m).question.length ∧
      3 ≤ (essayRegionQ qs.length m).sub_questions.length then
    qs ++ [essayRegionQ qs.length m]
  else qs

/-- `_parse_essay_response` (lines 779–859): regions between
`ESSAY_START`/`ESSAY_END`, falling back to splitting on `---` and
keeping parts containing `SCENARIO:` or `SUB_QUESTION:`. -/
def parseEssayResponse (text : Str) : List StructQ :=
  let ms := findBetween "ESSAY_START".data "ESSAY_END".data text
  let ms := if ms = [] then
      (splitOnSub "---".data text).filter
        (fun p => containsSub "SCENARIO:".data p || containsSub "SUB_QUESTION:".data p)
    else ms
  ms.foldl parseEssayRegion []

/-! ## Retry / accumulation loops

One loop iteration's interaction with the external model is abstracted
to a `GenOutcome`: either the raw `response.text` (the parser is then
applied inside the loop, as in the source) or an exception from
`generate_content` (caught by the per-attempt `except`, which only
sleeps).  Wall-clock sleeps and prompt construction do not influence the
accumulated state and are not modelled. -/

/-- Outcome of one `model.generate_content` call in a typed generator. -/
inductive GenOutcome where
  | response (text : Str)
  | error
deriving DecidableEq

/-- The per-attempt accumulation of the three typed generators
(`model_paper_generator.py` lines 413–416, 666–669, 921–924):
`for q in new_questions: if len(all_questions) < count:
q['question_number'] = len(all_questions) + 1; all_questions.append(q)`.
There is no duplicate check. -/
def accumStep {Q : Type} (setNum : Q → Nat → Q) (count : Nat)
    (all : List Q) (new : List Q) : List Q :=
  new.foldl (fun all q =>
    if all.length < count then all ++ [setNum q (all.length + 1)] else all) all

/-- The typed generators' retry loop
(`while len(all_questions) < count and attempts < max_attempts`), with
`fuel = maxAttempts - attempts` for termination.  Returns the
accumulated questions and the number of attempts made. -/
def genLoopAux {Q : Type} (parse : Str → List Q) (setNum : Q → Nat → Q)
    (count maxAttempts : Nat) (outcomes : Nat → GenOutcome) :
    List Q → Nat → Nat → List Q × Nat
  | all, attempts, 0 => (all, attempts)
  | all, attempts, fuel + 1 =>
    if all.length < count ∧ attempts < maxAttempts then
      let all' := match outcomes attempts with
        | .response t => if t ≠ [] then accumStep setNum count all (parse t) else all
        | .error => all
      genLoopAux parse setNum count maxAttempts outcomes all' (attempts + 1) fuel
    else (all, attempts)

def genLoop {Q : Type} (parse : Str → List Q) (setNum : Q → Nat → Q)
    (count maxAttempts : Nat) (outcomes : Nat → GenOutcome) : List Q × Nat :=
  genLoopAux parse setNum count maxAttempts outcomes [] 0 maxAttempts

def setNumShort (q : ShortQ) (n : Nat) : ShortQ := { q with question_number := n }

def setNumStruct (q : StructQ) (n : Nat) : StructQ := { q with question_number := n }

/-- The result dict of a typed generator (`type`, `questions`, `count`,
`requested`; `topics_used` and `generation_time_seconds` are pass-through
/ wall-clock metadata not modelled). -/
structure Batch (Q : Type) where
  btype : Str
  questions : List Q
  count : Nat
  requested : Nat
deriving DecidableEq

/-- `ModelPaperGenerator.generate_short_answer_questions` (lines
351–433): precondition check on `past_papers_loaded`, then the retry
loop with `max_attempts = 3`, then the result dict.  Exceptions inside
the loop are caught per-attempt, so after the precondition the function
always returns a batch. -/
def generateShortAnswerQuestions (loaded : Bool) (count : Nat)
    (outcomes : Nat → GenOutcome) : Except Str (Batch ShortQ) :=
  if loaded = false then
    .error "Past papers not loaded. Call load_past_paper_questions() first.".data
  else
    let r := genLoop parseShortAnswerResponse setNumShort count 3 outcomes
    .ok ⟨"short_answer".data, r.1, r.1.length, count⟩

/-- `ModelPaperGenerator.generate_structured_questions` (lines 605–688):
same loop with `max_attempts = 4` and the structured parser. -/
def generateStructuredQuestions (loaded : Bool) (count : Nat)
    (outcomes : Nat → GenOutcome) : Except Str (Batch StructQ) :=
  if loaded = false then
    .error "Past papers not loaded. Call load_past_paper_questions() first.".data
  else
    let r := genLoop parseStructuredResponse setNumStruct count 4 outcomes
    .ok ⟨"structured".data, r.1, r.1.length, count⟩

/-- `ModelPaperGenerator.generate_essay_questions` (lines 861–943):
same loop with `max_attempts = 4` and the essay parser. -/
def generateEssayQuestions (loaded : Bool) (count : Nat)
    (outcomes : Nat → GenOutcome) : Except Str (Batch StructQ) :=
  if loaded = false then
    .error "Past papers not loaded. Call load_past_paper_questions() first.".data
  else
    let r := genLoop parseEssayResponse setNumStruct count 4 outcomes
    .ok ⟨"essay_type".data, r.1, r.1.length, count⟩

/-! ### `SinhalaRAGSystem.generate_questions` (rag_model.py 1092–1203)

Its parser `_parse_response` yields dicts with keys `question`,
`solution`, `answer`; the loop outcome is abstracted at the parsed level
(the claims under verification concern only the loop).  The loop
deduplicates on the first 50 characters of `question` and raises when
nothing was accumulated. -/

structure RagQuestion where
  question : Str
  solution : Str
  answer : Str
deriving DecidableEq

/-- Outcome of one attempt in `generate_questions`: an exception
(rate-limited or not — both only sleep), an empty `response.text`
(`continue`), or the parsed question list. -/
inductive RagOutcome where
  | ok (qs : List RagQuestion)
  | emptyText
  | error
deriving DecidableEq

/-- The duplicate-filtering accumulation of `generate_questions`
(lines 1164–1173): a parsed question is appended only when there is
room and no already-accumulated question has the same first-50-character
question prefix. -/
def ragAccum (numQuestions : Nat) (all new : List RagQuestion) : List RagQuestion :=
  new.foldl (fun all q =>
    if all.length < numQuestions then
      if all.any (fun ex => ex.question.take 50 = q.question.take 50) then all
      else all ++ [q]
    else all) all

/-- The retry loop of `generate_questions`
(`while len(all_questions) < num_questions and attempt < max_attempts`,
`max_attempts = 5`). -/
def ragLoopAux (numQuestions maxAttempts : Nat) (outcomes : Nat → RagOutcome) :
    List RagQuestion → Nat → Nat → List RagQuestion × Nat
  | all, attempt, 0 => (all, attempt)
  | all, attempt, fuel + 1 =>
    if all.length < numQuestions ∧ attempt < maxAttempts then
      let all' := match outcomes attempt with
        | .ok qs => ragAccum numQuestions all qs
        | .emptyText => all
        | .error => all
      ragLoopAux numQuestions maxAttempts outcomes all' (attempt + 1) fuel
    else (all, attempt)

def ragLoop (numQuestions : Nat) (outcomes : Nat → RagOutcome) :
    List RagQuestion × Nat :=
  ragLoopAux numQuestions 5 outcomes [] 0 5

/-- `generate_questions` terminal behaviour (lines 1196–1203): a
truncated batch when anything was accumulated, otherwise
`raise Exception(...)`.  (The second tuple component `rag_used` of the
source is retrieval metadata not modelled.) -/
def ragGenerateQuestions (numQuestions : Nat) (outcomes : Nat → RagOutcome) :
    Except Str (List RagQuestion) :=
  let r := ragLoop numQuestions outcomes
  if r.1 ≠ [] then .ok (r.1.take numQuestions)
  else .error "Failed to generate questions. Please try again.".data

/-! ## Reference corpus: loading, indexes, sampling
(`model_paper_generator.py` lines 67–217) -/

/-- A past-paper question record as used by the corpus code: `topic` and
`type` are read with `q.get(...)`, hence `Option` (a missing key gives
`None` or the call-site default).  `payload` stands for the remaining
shape-specific fields, which the indexing code carries around
unchanged. -/
structure RefQ where
  topic : Option Str
  qtype : Option Str
  payload : Str
deriving DecidableEq

/-- A raw element of the JSON `questions` list: a dict, or a non-dict
value on which `q.get` raises `AttributeError`. -/
inductive RawRecord where
  | dict (q : RefQ)
  | notDict
deriving DecidableEq

/-- A parsed corpus document: a JSON object (with or without a
`questions` list) or a non-object on which `data.get` raises. -/
inductive JsonDoc where
  | obj (questions : Option (List RawRecord))
  | nonObj
deriving DecidableEq

/-- The corpus-related state of a `ModelPaperGenerator` instance. -/
structure GenState where
  past_paper_questions : List RefQ
  past_paper_by_topic : List (Str × List RefQ)
  past_paper_by_type : List (Str × List RefQ)
  available_topics : List Str
  past_papers_loaded : Bool
deriving DecidableEq

/-- The state set up by `__init__` (lines 67–71). -/
def initialGenState : GenState := ⟨[], [], [], [], false⟩

/-- Python dict lookup `d.get(k, [])` on an insertion-ordered dict,
modelled as an association list. -/
def dictGet (d : List (Str × List RefQ)) (k : Str) : List RefQ :=
  match d.find? (fun p => p.1 = k) with
  | some p => p.2
  | none => []

/-- `if k not in d: d[k] = []` followed by `d[k].append(q)`. -/
def dictAppend (d : List (Str × List RefQ)) (k : Str) (q : RefQ) :
    List (Str × List RefQ) :=
  match d with
  | [] => [(k, [q])]
  | (k', v) :: rest =>
    if k' = k then (k', v ++ [q]) :: rest else (k', v) :: dictAppend rest k q

/-- `ModelPaperGenerator._parse_topics` (lines 89–94). -/
def parseTopics (s : Str) : List Str :=
  if s = [] then []
  else ((splitChar '/' s).map strip).filter (· ≠ [])

/-- The environment a `load_past_paper_questions` call runs in: file
existence, file reading + JSON parsing (`.error` models an exception
from `open`/`json.load`), and the `os.path` functions used to build the
candidate path list. -/
structure PyEnv where
  fileExists : Str → Bool
  readJson : Str → Except Unit JsonDoc
  joinDirs : Str → Str
  defaultDataPath : Str
  absPath : Str → Str
  normPath : Str → Str

/-- The candidate paths tried by `load_past_paper_questions`
(lines 105–110), each normalized (line 114). -/
def possiblePaths (env : PyEnv) (jsonPath : Str) : List Str :=
  [jsonPath, env.joinDirs jsonPath, env.defaultDataPath, env.absPath jsonPath].map
    env.normPath

/-- The first candidate path that exists (lines 112–118). -/
def firstExisting (env : PyEnv) (jsonPath : Str) : Option Str :=
  (possiblePaths env jsonPath).find? env.fileExists

/-- Indexing of one record (loop body, lines 141–156): append to
`past_paper_questions`, to `past_paper_by_topic` under each parsed
topic, and to `past_paper_by_type` under `q.get('type','short_answer')`;
`allTopics` accumulates the topic set (modelled as a first-insertion-
ordered duplicate-free list; the CPython `set` iteration order is an
implementation detail no claim depends on). -/
def addRecord (g : GenState) (allTopics : List Str) (q : RefQ) :
    GenState × List Str :=
  let g := { g with past_paper_questions := g.past_paper_questions ++ [q] }
  let topics := parseTopics (q.topic.getD [])
  let step := topics.foldl (fun (p : GenState × List Str) t =>
      ({ p.1 with past_paper_by_topic := dictAppend p.1.past_paper_by_topic t q },
       if t ∈ p.2 then p.2 else p.2 ++ [t])) (g, allTopics)
  let qt := (q.qtype).getD "short_answer".data
  ({ step.1 with past_paper_by_type := dictAppend step.1.past_paper_by_type qt q },
   step.2)

/-- The record loop (lines 141–159).  A non-dict record raises
`AttributeError` at `q.get`, which the surrounding `except` catches
after the indexes have already been partially mutated: the function then
reports failure with the partially rebuilt state.  On completion
`available_topics` and `past_papers_loaded` are set. -/
def processRecords : GenState → List Str → List RawRecord → Bool × GenState
  | g, allTopics, [] =>
    (true, { g with available_topics := allTopics, past_papers_loaded := true })
  | g, _, RawRecord.notDict :: _ => (false, { g with past_papers_loaded := false })
  | g, allTopics, RawRecord.dict q :: rs =>
    let p := addRecord g allTopics q
    processRecords p.1 p.2 rs

/-- The body of `load_past_paper_questions` from the `try` block on
(lines 125–170): an exception from `open`/`json.load` (`.error`) or a
non-object document is caught with the state untouched; an empty or
missing `questions` list returns `False`; otherwise the indexes are
cleared in place (lines 136–138) and the record loop runs. -/
def loadDoc (g : GenState) : Except Unit JsonDoc → Bool × GenState
  | .error _ => (false, { g with past_papers_loaded := false })
  | .ok .nonObj => (false, { g with past_papers_loaded := false })
  | .ok (.obj questionsOpt) =>
    if questionsOpt.getD [] = [] then (false, { g with past_papers_loaded := false })
    else
      processRecords
        { g with past_paper_questions := [], past_paper_by_topic := [],
                 past_paper_by_type := [] }
        [] (questionsOpt.getD [])

/-- `ModelPaperGenerator.load_past_paper_questions` (lines 98–170).
Returns the boolean result together with the instance state after the
call. -/
def loadPastPaperQuestions (env : PyEnv) (g : GenState) (jsonPath : Str) :
    Bool × GenState :=
  match firstExisting env jsonPath with
  | none => (false, { g with past_papers_loaded := false })
  | some p => loadDoc g (env.readJson p)

/-- The topical candidate pool of `_get_reference_questions`
(lines 184–190): for each topic in order, append the by-topic matches of
the requested type that are not already collected. -/
def topicalCandidates (g : GenState) (topics : List Str) (questionType : Str) :
    List RefQ :=
  topics.foldl (fun cs topic =>
    (dictGet g.past_paper_by_topic topic).foldl (fun cs q =>
      if q.qtype = some questionType ∧ q ∉ cs then cs ++ [q] else cs) cs) []

/-- The widening loop of `_get_reference_questions` (lines 192–198):
append by-type questions not already present, breaking once the pool
reaches `count * 2` (the break is checked after each record). -/
def widenLoop (cap : Nat) : List RefQ → List RefQ → List RefQ
  | [], cs => cs
  | q :: rest, cs =>
    let cs' := if q ∈ cs then cs else cs ++ [q]
    if cap ≤ cs'.length then cs' else widenLoop cap rest cs'

/-- The full candidate pool of `_get_reference_questions`. -/
def refPool (g : GenState) (topics : List Str) (questionType : Str) (count : Nat) :
    List RefQ :=
  let candidates := topicalCandidates g topics questionType
  if candidates.length < count then
    widenLoop (count * 2) (dictGet g.past_paper_by_type questionType) candidates
  else candidates

/-- `ModelPaperGenerator._get_reference_questions` (lines 182–200).
`random.sample(candidates, min(count, len(candidates)))` is modelled by
an explicit `sampler` argument; the theorems assume only what
`random.sample` guarantees (result length, membership). -/
def getReferenceQuestions (g : GenState) (sampler : Nat → List RefQ → List RefQ)
    (topics : List Str) (questionType : Str) (count : Nat) : List RefQ :=
  let candidates := refPool g topics questionType count
  if candidates ≠ [] then sampler (min count candidates.length) candidates else []

/-- The `random.sample` model used by concrete witnesses: take the first
`k` elements. -/
def takeSampler (k : Nat) (l : List RefQ) : List RefQ := l.take k

/-! ## API request handlers (`apis/api.py`) -/

/-- The mutable request-level state shared by the handlers:
`generator.past_papers_loaded` plus the `generation_status` dict
(lines 67–72).  `progressTag` stands for the contents of the `progress`
sub-dict, which the conflict check must not depend on. -/
structure ApiState where
  past_papers_loaded : Bool
  is_generating : Bool
  current_task_id : Option Str
  progressTag : Nat
  last_paper : Option Str
deriving DecidableEq

/-- An HTTP error response raised via `HTTPException`. -/
structure HttpError where
  status_code : Nat
  detail : Str
deriving DecidableEq

/-- Outcome of the underlying `generator.generate_model_paper` call made
by the synchronous handler (external to the claims). -/
inductive PaperOutcome where
  | ok (paper : Str)
  | error (msg : Str) (rateLimited : Bool)
deriving DecidableEq

/-- `generate_model_paper` (api.py lines 568–656): the loaded-check
(400), the busy-check (409), then the guarded generation with its
`except` mapping and `finally` reset.  Returns the response-or-error and
the state after the call. -/
def generateModelPaper (st : ApiState) (taskId : Str) (progress : Nat)
    (run : PaperOutcome) : Except HttpError Str × ApiState :=
  if st.past_papers_loaded = false then
    (.error ⟨400, "Past papers not loaded. Call /initialize with load_past_papers=true first.".data⟩, st)
  else if st.is_generating then
    (.error ⟨409, "Generation already in progress. Check /model-paper/progress endpoint.".data⟩, st)
  else
    let st := { st with is_generating := true, current_task_id := some taskId,
                        progressTag := progress }
    match run with
    | .ok paper =>
      (.ok paper, { st with last_paper := some paper, is_generating := false })
    | .error msg rateLimited =>
      if rateLimited then
        (.error ⟨429, "Rate limit exceeded. Wait 2-3 minutes and try again.".data⟩,
         { st with is_generating := false })
      else (.error ⟨500, msg⟩, { st with is_generating := false })

/-- `generate_model_paper_async` (api.py lines 829–881): same two
checks, then the task is scheduled and an acknowledgement returned (the
background task itself runs after the response; only the handler's own
transition is modelled). -/
def generateModelPaperAsync (st : ApiState) (taskId : Str) (progress : Nat) :
    Except HttpError Str × ApiState :=
  if st.past_papers_loaded = false then
    (.error ⟨400, "Past papers not loaded. Call /initialize with load_past_papers=true first.".data⟩, st)
  else if st.is_generating then
    (.error ⟨409, "Generation already in progress".data⟩, st)
  else
    (.ok "Generation started. Check /model-paper/progress for status.".data,
     { st with is_generating := true, current_task_id := some taskId,
               progressTag := progress })

/-! ## Concrete scenario data used by witnesses and counterexamples -/

/-- Every generation attempt raises (e.g. the provider keeps
rate-limiting). -/
def noTextOutcomes : Nat → GenOutcome := fun _ => .error

/-- Every `generate_questions` attempt raises. -/
def errRagOutcomes : Nat → RagOutcome := fun _ => .error

/-- A well-formed short-answer response whose two regions carry the
same question text. -/
def dupShortText : Str :=
  ("QUESTION_START\nNUMBER: 1\nTOPIC: algebra\nQUESTION: compute the value of 2 + 2 in this case\nSTEPS:\n- add = 4\nFINAL_ANSWER: 4\nQUESTION_END\nQUESTION_START\nNUMBER: 2\nTOPIC: algebra\nQUESTION: compute the value of 2 + 2 in this case\nSTEPS:\n- add = 4\nFINAL_ANSWER: 4\nQUESTION_END\n").data

/-- The model returns `dupShortText` on every attempt. -/
def dupOutcomes : Nat → GenOutcome := fun _ => .response dupShortText

/-- The questions of a short-answer generation result (empty on the
precondition error). -/
def shortBatchOf (r : Except Str (Batch ShortQ)) : List ShortQ :=
  match r with
  | .ok b => b.questions
  | .error _ => []

/-- A short-answer response with the `QUESTION_START`/`QUESTION_END`
wrapper removed but the field markers intact. -/
def shortNoWrapText : Str :=
  ("NUMBER: 1\nTOPIC: algebra\nQUESTION: solve for x where 2x + 5 = 25\nSTEPS:\n- subtract 5 = 2x equals 20\nFINAL_ANSWER: 10\n").data

/-- A structured response with the `STRUCTURED_START`/`STRUCTURED_END`
wrapper removed but the field markers intact. -/
def structNoWrapText : Str :=
  ("NUMBER: 1\nTOPIC: interest\nMAIN_CONTEXT: a person deposits money in a bank\n\nSUB_QUESTION: (a)\nTEXT: find the interest after one year?\nSTEPS:\n- apply formula = 4000\nANSWER: 4000\n\nSUB_QUESTION: (b)\nTEXT: find the total after two years?\nSTEPS:\n- add interest = 58320\nANSWER: 58320\n").data

/-- An essay response with the `ESSAY_START`/`ESSAY_END` wrapper removed
but the field markers intact. -/
def essayNoWrapText : Str :=
  ("NUMBER: 1\nTOPICS: interest, shares\nSCENARIO: kamal rents his house for a monthly payment and wants to compare two long offers over a year\n\nSUB_QUESTION: (i)\nTEXT: find the yearly rent that kamal gets?\nSTEPS:\n- multiply = 96000\nANSWER: 96000\n\nSUB_QUESTION: (ii)\nTEXT: find the interest on the deposit?\nSTEPS:\n- formula = 7200\nANSWER: 7200\n\nSUB_QUESTION: (iii)\nTEXT: which option is better for kamal?\nSTEPS:\n- compare = option two\nANSWER: option two\n").data

/-- A fully wrapped structured response with two sub-questions. -/
def structWrapText : Str :=
  ("STRUCTURED_START\nNUMBER: 1\nTOPIC: interest\nMAIN_CONTEXT: a person deposits money in a bank account\n\nSUB_QUESTION: (a)\nTEXT: find the interest after one year?\nSTEPS:\n- apply formula = 4000\nANSWER: 4000\n\nSUB_QUESTION: (b)\nTEXT: find the total after two years?\nSTEPS:\n- add interest = 58320\nANSWER: 58320\n\nSTRUCTURED_END\n").data

/-- The question parsed from `structWrapText`. -/
def structWrapParsed : StructQ :=
  ⟨1, ["interest".data], "a person deposits money in a bank account".data,
   [⟨"(a)".data, "find the interest after one year?".data,
     [⟨"apply formula".data, "4000".data⟩], some "4000".data⟩,
    ⟨"(b)".data, "find the total after two years?".data,
     [⟨"add interest".data, "58320".data⟩], some "58320".data⟩]⟩

/-- An environment in which no file exists. -/
def envAllMissing : PyEnv :=
  ⟨fun _ => false, fun _ => .error (), id, "data".data, id, id⟩

/-- A record of a previously loaded corpus. -/
def refQOld : RefQ := ⟨some "t".data, some "short_answer".data, "old".data⟩

/-- A generator state holding a previously loaded one-record corpus. -/
def loadedGenState : GenState :=
  ⟨[refQOld], [("t".data, [refQOld])], [("short_answer".data, [refQOld])],
   ["t".data], true⟩

/-- The first record of a corrupted replacement corpus. -/
def refQNew : RefQ := ⟨some "u".data, some "essay_type".data, "new".data⟩

/-- An environment whose corpus file parses to one good record followed
by a non-dict entry (on which `q.get` raises mid-loop). -/
def envBadRecord : PyEnv :=
  ⟨fun _ => true, fun _ => .ok (.obj (some [.dict refQNew, .notDict])), id,
   "data".data, id, id⟩

/-- The early-failure cases of `load_past_paper_questions`: no candidate
path exists, reading/parsing raises, the document is not an object, or
its `questions` list is missing or empty — everything that returns
`False` before the record loop starts mutating the indexes. -/
def loadFailsEarly (env : PyEnv) (jsonPath : Str) : Prop :=
  firstExisting env jsonPath = none ∨
  ∃ p, firstExisting env jsonPath = some p ∧
    (env.readJson p = .error () ∨ env.readJson p = .ok .nonObj ∨
     env.readJson p = .ok (.obj none) ∨ env.readJson p = .ok (.obj (some [])))

/-- A corpus state for the sampling witness. -/
def refQA : RefQ := ⟨some "alg".data, some "short_answer".data, "qa".data⟩

def refQB : RefQ := ⟨some "alg".data, some "short_answer".data, "qb".data⟩

def sampleGenState : GenState :=
  ⟨[refQA, refQB], [("alg".data, [refQA, refQB])],
   [("short_answer".data, [refQA, refQB])], ["alg".data], true⟩

/-- A busy API state (a generation in flight). -/
def busyApiState : ApiState := ⟨true, true, some "gen_1".data, 7, none⟩

/-- A parsed RAG question used by concrete instantiations. -/
def ragQW : RagQuestion :=
  ⟨"the interest earned on the deposit after one year".data, "sol".data, "ans".data⟩

/-- Every `generate_questions` attempt parses to the single question
`ragQW`. -/
def oneRagOutcomes : Nat → RagOutcome := fun _ => .ok [ragQW]

/-! # Theorems -/

/-! ## C5 — step-line parsing across the three parsers

The claim asserts the treatment of lines without `=` is uniform; in the
source only the short-answer parser has the `elif line:` branch, so the
structured and essay parsers drop such lines. -/

/-- C5 (counterexample): on the STEPS block line `step one` (no `=`),
the short-answer parser emits a step with empty value but the
structured and essay parsers emit nothing, contradicting the claimed
uniformity. -/
theorem c5_counterexample :
    shortStepLines "step one".data = [⟨"step one".data, []⟩] ∧
    structuredStepLines "step one".data = [] ∧
    essayStepLines "step one".data = [] ∧
    structuredStepLines "step one".data ≠ shortStepLines "step one".data := by
  refine ⟨by decide, by decide, by decide, by decide⟩

/-- C5 (amended): for every STEPS-block line, all three parsers clean
the line with `strip/lstrip('-')/strip` and split it on the first `=`
into description and value; the essay parser behaves exactly like the
structured parser; but a non-empty line without `=` becomes a step with
empty value only in the short-answer parser — the structured and essay
parsers drop it. -/
theorem c5_step_line_parsing (line : Str) :
    essayStepLine line = structuredStepLine line ∧
    (containsChar '=' (strip (lstripDash (strip line))) = true →
      shortStepLine line = structuredStepLine line ∧
      shortStepLine line =
        [⟨strip (splitFirst '=' (strip (lstripDash (strip line)))).1,
          strip (splitFirst '=' (strip (lstripDash (strip line)))).2⟩]) ∧
    (containsChar '=' (strip (lstripDash (strip line))) = false →
      strip (lstripDash (strip line)) ≠ [] →
      shortStepLine line = [⟨strip (lstripDash (strip line)), []⟩] ∧
      structuredStepLine line = []) := by
  refine ⟨rfl, ?_, ?_⟩
  · intro h
    constructor
    · simp only [shortStepLine, structuredStepLine, h, if_true]
    · simp only [shortStepLine, h, if_true]
  · intro h hne
    constructor
    · simp only [shortStepLine, h, Bool.false_eq_true, if_false, hne, ite_true,
        ne_eq, not_false_eq_true]
    · simp only [structuredStepLine, h, Bool.false_eq_true, if_false]

/-- Witness for `c5_step_line_parsing` at the concrete line
`"- find the sum = 12"` and at `"- partial step"`. -/
theorem c5_step_line_parsing_witness :
    (shortStepLine "- find the sum = 12".data =
        structuredStepLine "- find the sum = 12".data ∧
      shortStepLine "- find the sum = 12".data =
        [⟨strip (splitFirst '=' (strip (lstripDash (strip "- find the sum = 12".data)))).1,
          strip (splitFirst '=' (strip (lstripDash (strip "- find the sum = 12".data)))).2⟩]) ∧
    (shortStepLine "- partial step".data =
        [⟨strip (lstripDash (strip "- partial step".data)), []⟩] ∧
      structuredStepLine "- partial step".data = []) :=
  ⟨(c5_step_line_parsing "- find the sum = 12".data).2.1 (by decide),
   (c5_step_line_parsing "- partial step".data).2.2 (by decide) (by decide)⟩

/-! ## C10 — concurrent generation requests are rejected with 409 -/

/-- C10: while a generation is in flight (`is_generating = true`, with
the corpus loaded as any in-flight generation required), both
`generate_model_paper` and `generate_model_paper_async` reject a new
request with HTTP 409 and leave the shared state — including the
in-flight request's task id, progress and last paper — unchanged,
whatever the would-be generation outcome. -/
theorem c10_concurrent_conflict (st : ApiState) (taskId : Str) (progress : Nat)
    (run : PaperOutcome) (hloaded : st.past_papers_loaded = true)
    (hbusy : st.is_generating = true) :
    generateModelPaper st taskId progress run =
      (.error ⟨409, "Generation already in progress. Check /model-paper/progress endpoint.".data⟩, st) ∧
    generateModelPaperAsync st taskId progress =
      (.error ⟨409, "Generation already in progress".data⟩, st) := by
  constructor
  · simp only [generateModelPaper, hloaded, Bool.true_eq_false, if_false, hbusy, if_true]
  · simp only [generateModelPaperAsync, hloaded, Bool.true_eq_false, if_false, hbusy, if_true]

/-- Witness for `c10_concurrent_conflict` at a concrete busy state. -/
theorem c10_concurrent_conflict_witness :
    generateModelPaper busyApiState "gen_2".data 9 (.ok "paper".data) =
      (.error ⟨409, "Generation already in progress. Check /model-paper/progress endpoint.".data⟩,
       busyApiState) ∧
    generateModelPaperAsync busyApiState "gen_2".data 9 =
      (.error ⟨409, "Generation already in progress".data⟩, busyApiState) :=
  c10_concurrent_conflict busyApiState "gen_2".data 9 (.ok "paper".data) rfl rfl

/-! ## Loop lemmas shared by C1, C2, C3 and C4 -/

theorem accumStep_nil {Q : Type} (setNum : Q → Nat → Q) (count : Nat)
    (all : List Q) : accumStep setNum count all [] = all := rfl

theorem accumStep_cons {Q : Type} (setNum : Q → Nat → Q) (count : Nat)
    (all : List Q) (q : Q) (new : List Q) :
    accumStep setNum count all (q :: new) =
      accumStep setNum count
        (if all.length < count then all ++ [setNum q (all.length + 1)] else all)
        new := rfl

/-- The typed accumulation never exceeds the requested count. -/
theorem accumStep_length_le {Q : Type} (setNum : Q → Nat → Q) (count : Nat) :
    ∀ (new all : List Q), all.length ≤ count →
      (accumStep setNum count all new).length ≤ count := by
  intro new
  induction new with
  | nil => intro all h; exact h
  | cons q new ih =>
    intro all h
    rw [accumStep_cons]
    apply ih
    split
    · next hlt => simpa using hlt
    · exact h

/-- While there is room for every parsed question, the typed
accumulation appends all of them (no duplicate check of any kind). -/
theorem accumStep_length_eq {Q : Type} (setNum : Q → Nat → Q) :
    ∀ (count : Nat) (new all : List Q), all.length + new.length ≤ count →
      (accumStep setNum count all new).length = all.length + new.length := by
  intro count new
  induction new with
  | nil => intro all _; rfl
  | cons q new ih =>
    intro all h
    rw [accumStep_cons]
    have hlt : all.length < count := by simp at h ⊢; omega
    rw [if_pos hlt]
    have := ih (all ++ [setNum q (all.length + 1)]) (by simp at h ⊢; omega)
    rw [this]
    simp; omega

/-- Every question accumulated by the typed loop satisfies any property
preserved by renumbering and holding for all parser outputs. -/
theorem accumStep_pred {Q : Type} (setNum : Q → Nat → Q) (count : Nat)
    (P : Q → Prop) (hset : ∀ q n, P q → P (setNum q n)) :
    ∀ (new all : List Q), (∀ q ∈ all, P q) → (∀ q ∈ new, P q) →
      ∀ q ∈ accumStep setNum count all new, P q := by
  intro new
  induction new with
  | nil => intro all hall _ q hq; exact hall q hq
  | cons q0 new ih =>
    intro all hall hnew q hq
    rw [accumStep_cons] at hq
    refine ih _ ?_ (fun q hq => hnew q (List.mem_cons_of_mem _ hq)) q hq
    intro x hx
    split at hx
    · rcases List.mem_append.1 hx with h | h
      · exact hall x h
      · rcases List.mem_singleton.1 h with rfl
        exact hset _ _ (hnew q0 (List.mem_cons_self _ _))
    · exact hall x hx

/-- Count/attempt behaviour of the typed retry loop: the accumulated
list never exceeds the requested count, and if the loop stops short of
the count then the whole attempt budget was used. -/
theorem genLoopAux_count {Q : Type} (parse : Str → List Q) (setNum : Q → Nat → Q)
    (count maxA : Nat) (o : Nat → GenOutcome) :
    ∀ (fuel : Nat) (all : List Q) (attempts : Nat), all.length ≤ count →
      attempts + fuel = maxA →
      (genLoopAux parse setNum count maxA o all attempts fuel).1.length ≤ count ∧
      ((genLoopAux parse setNum count maxA o all attempts fuel).1.length < count →
        (genLoopAux parse setNum count maxA o all attempts fuel).2 = maxA) := by
  intro fuel
  induction fuel with
  | zero =>
    intro all attempts h hf
    simp only [genLoopAux]
    exact ⟨h, fun _ => by omega⟩
  | succ fuel ih =>
    intro all attempts h hf
    rw [genLoopAux]
    split
    · next hcond =>
      apply ih
      · cases o attempts with
        | response t =>
          simp only []
          split
          · exact accumStep_length_le _ _ _ _ h
          · exact h
        | error => exact h
      · omega
    · next hcond =>
      refine ⟨h, fun hlt => ?_⟩
      exact absurd ⟨hlt, by omega⟩ hcond

/-- Property preservation through the typed retry loop. -/
theorem genLoopAux_pred {Q : Type} (parse : Str → List Q) (setNum : Q → Nat → Q)
    (count maxA : Nat) (o : Nat → GenOutcome) (P : Q → Prop)
    (hparse : ∀ t q, q ∈ parse t → P q)
    (hset : ∀ q n, P q → P (setNum q n)) :
    ∀ (fuel : Nat) (all : List Q) (attempts : Nat), (∀ q ∈ all, P q) →
      ∀ q ∈ (genLoopAux parse setNum count maxA o all attempts fuel).1, P q := by
  intro fuel
  induction fuel with
  | zero => intro all attempts hall; simpa only [genLoopAux] using hall
  | succ fuel ih =>
    intro all attempts hall
    rw [genLoopAux]
    split
    · apply ih
      cases o attempts with
      | response t =>
        simp only []
        split
        · exact accumStep_pred setNum count P hset _ _ hall (hparse t)
        · exact hall
      | error => exact hall
    · exact hall

theorem ragAccum_cons (numQ : Nat) (all : List RagQuestion) (q : RagQuestion)
    (new : List RagQuestion) :
    ragAccum numQ all (q :: new) =
      ragAccum numQ
        (if all.length < numQ then
          (if all.any (fun ex => ex.question.take 50 = q.question.take 50) then all
           else all ++ [q])
         else all) new := rfl

/-- The dedup accumulation of `generate_questions` preserves
pairwise-distinct 50-character question prefixes. -/
theorem ragAccum_pairwise (numQ : Nat) :
    ∀ (new all : List RagQuestion),
      all.Pairwise (fun a b => a.question.take 50 ≠ b.question.take 50) →
      (ragAccum numQ all new).Pairwise
        (fun a b => a.question.take 50 ≠ b.question.take 50) := by
  intro new
  induction new with
  | nil => intro all h; exact h
  | cons q new ih =>
    intro all h
    rw [ragAccum_cons]
    apply ih
    split
    · split
      · exact h
      · next hdup =>
        rw [List.pairwise_append]
        refine ⟨h, List.pairwise_singleton _ _, ?_⟩
        intro a ha b hb
        rcases List.mem_singleton.1 hb with rfl
        intro heq
        exact hdup (List.any_eq_true.2 ⟨a, ha, by simpa using heq⟩)
    · exact h

/-- Pairwise-distinct prefixes and attempt exhaustion through the
`generate_questions` loop. -/
theorem ragLoopAux_spec (numQ maxA : Nat) (o : Nat → RagOutcome) :
    ∀ (fuel : Nat) (all : List RagQuestion) (attempt : Nat),
      attempt + fuel = maxA →
      all.Pairwise (fun a b => a.question.take 50 ≠ b.question.take 50) →
      (ragLoopAux numQ maxA o all attempt fuel).1.Pairwise
        (fun a b => a.question.take 50 ≠ b.question.take 50) ∧
      ((ragLoopAux numQ maxA o all attempt fuel).1.length < numQ →
        (ragLoopAux numQ maxA o all attempt fuel).2 = maxA) := by
  intro fuel
  induction fuel with
  | zero =>
    intro all attempt hf h
    simp only [ragLoopAux]
    exact ⟨h, fun _ => by omega⟩
  | succ fuel ih =>
    intro all attempt hf h
    rw [ragLoopAux]
    split
    · apply ih
      · omega
      · cases o attempt with
        | ok qs => exact ragAccum_pairwise numQ qs all h
        | emptyText => exact h
        | error => exact h
    · next hcond =>
      refine ⟨h, fun hlt => ?_⟩
      exact absurd ⟨hlt, by omega⟩ hcond

/-! ## C1 — the 50-character-prefix dedup invariant

The claim asserts the invariant for `generate_questions` *and* the three
typed generators; only `generate_questions` has the duplicate check
(rag_model.py lines 1164–1173), while the typed accumulation loops
append unconditionally. -/

/-- Unfolding of `ragGenerateQuestions` used to reason by cases. -/
theorem ragGenerateQuestions_eq (numQ : Nat) (ro : Nat → RagOutcome) :
    ragGenerateQuestions numQ ro =
      if (ragLoop numQ ro).1 ≠ [] then .ok ((ragLoop numQ ro).1.take numQ)
      else .error "Failed to generate questions. Please try again.".data := rfl

set_option maxRecDepth 8192 in
/-- C1 (counterexample): a response carrying the same question text in
two regions makes `generate_short_answer_questions` accumulate both —
the returned batch has two questions with an identical 50-character
prefix. -/
theorem c1_counterexample :
    (shortBatchOf (generateShortAnswerQuestions true 2 dupOutcomes)).length = 2 ∧
    ¬ ((shortBatchOf (generateShortAnswerQuestions true 2 dupOutcomes)).map
        (fun q => q.question.take 50)).Nodup := by
  refine ⟨by decide, by decide⟩

/-- C1 (amended): batches returned by `SinhalaRAGSystem.generate_questions`
never contain two questions with the same first-50-character question
prefix; the three typed generators, by contrast, perform no duplicate
check at all — their accumulation appends every parsed question
(renumbered) as long as the requested count has room. -/
theorem c1_dedup_invariant :
    (∀ (numQ : Nat) (ro : Nat → RagOutcome) (qs : List RagQuestion),
      ragGenerateQuestions numQ ro = .ok qs →
      qs.Pairwise (fun a b => a.question.take 50 ≠ b.question.take 50)) ∧
    (∀ (count : Nat) (all new : List ShortQ), all.length + new.length ≤ count →
      (accumStep setNumShort count all new).length = all.length + new.length) := by
  constructor
  · intro numQ ro qs hok
    have hloop := ragLoopAux_spec numQ 5 ro 5 [] 0 rfl (List.Pairwise.nil)
    rw [ragGenerateQuestions_eq] at hok
    split at hok
    · cases hok
      exact List.Pairwise.sublist (List.take_sublist _ _) hloop.1
    · cases hok
  · intro count all new h
    exact accumStep_length_eq setNumShort count new all h

/-- Witness for `c1_dedup_invariant`: a concrete successful
`generate_questions` run whose batch satisfies the dedup invariant, and
a concrete unchecked append. -/
theorem c1_dedup_invariant_witness :
    ([ragQW].Pairwise (fun a b => a.question.take 50 ≠ b.question.take 50)) ∧
    (accumStep setNumShort 2 [] [⟨1, [], "q".data, [], "a".data⟩,
        ⟨2, [], "q".data, [], "a".data⟩]).length = 0 + 2 :=
  ⟨(c1_dedup_invariant).1 1 oneRagOutcomes [ragQW] rfl,
   (c1_dedup_invariant).2 2 [] [⟨1, [], "q".data, [], "a".data⟩,
      ⟨2, [], "q".data, [], "a".data⟩] (by decide)⟩

/-! ## C2 — count bounds of the four generation operations -/

/-- C2: for every generation operation with requested count at least 1,
the returned question count never exceeds the request, equals the
length of the returned list, and falls short of the request only when
the operation's whole attempt budget was used (3 attempts for
short-answer, 4 for structured and essay, 5 for `generate_questions`). -/
theorem c2_count_bounds (count numQ : Nat) (_hc : 1 ≤ count) (_hn : 1 ≤ numQ)
    (o : Nat → GenOutcome) (ro : Nat → RagOutcome) :
    (∀ b, generateShortAnswerQuestions true count o = .ok b →
      b.count = b.questions.length ∧ b.count ≤ count ∧
      (b.count < count →
        (genLoop parseShortAnswerResponse setNumShort count 3 o).2 = 3)) ∧
    (∀ b, generateStructuredQuestions true count o = .ok b →
      b.count = b.questions.length ∧ b.count ≤ count ∧
      (b.count < count →
        (genLoop parseStructuredResponse setNumStruct count 4 o).2 = 4)) ∧
    (∀ b, generateEssayQuestions true count o = .ok b →
      b.count = b.questions.length ∧ b.count ≤ count ∧
      (b.count < count →
        (genLoop parseEssayResponse setNumStruct count 4 o).2 = 4)) ∧
    (∀ qs, ragGenerateQuestions numQ ro = .ok qs →
      qs.length ≤ numQ ∧ (qs.length < numQ → (ragLoop numQ ro).2 = 5)) := by
  refine ⟨?_, ?_, ?_, ?_⟩
  · intro b hok
    have hspec := genLoopAux_count parseShortAnswerResponse setNumShort count 3 o
      3 [] 0 (by simp) rfl
    simp only [generateShortAnswerQuestions, Bool.true_eq_false, if_false] at hok
    cases hok
    exact ⟨rfl, hspec.1, hspec.2⟩
  · intro b hok
    have hspec := genLoopAux_count parseStructuredResponse setNumStruct count 4 o
      4 [] 0 (by simp) rfl
    simp only [generateStructuredQuestions, Bool.true_eq_false, if_false] at hok
    cases hok
    exact ⟨rfl, hspec.1, hspec.2⟩
  · intro b hok
    have hspec := genLoopAux_count parseEssayResponse setNumStruct count 4 o
      4 [] 0 (by simp) rfl
    simp only [generateEssayQuestions, Bool.true_eq_false, if_false] at hok
    cases hok
    exact ⟨rfl, hspec.1, hspec.2⟩
  · intro qs hok
    have hspec := ragLoopAux_spec numQ 5 ro 5 [] 0 rfl (List.Pairwise.nil)
    rw [show ragLoopAux numQ 5 ro [] 0 5 = ragLoop numQ ro from rfl] at hspec
    rw [ragGenerateQuestions_eq] at hok
    split at hok
    · cases hok
      refine ⟨List.length_take_le _ _, fun hlt => ?_⟩
      apply hspec.2
      have := List.length_take numQ (ragLoop numQ ro).1
      omega
    · cases hok

/-- Witness for `c2_count_bounds`: requesting one short-answer question
while every attempt errors yields count 0 ≤ 1 with the 3-attempt budget
exhausted. -/
theorem c2_count_bounds_witness :
    (0 : Nat) = ([] : List ShortQ).length ∧ 0 ≤ 1 ∧
    ((0 : Nat) < 1 →
      (genLoop parseShortAnswerResponse setNumShort 1 3 noTextOutcomes).2 = 3) :=
  (c2_count_bounds 1 1 (by decide) (by decide) noTextOutcomes errRagOutcomes).1
    ⟨"short_answer".data, [], 0, 1⟩ rfl

/-! ## C4 — which zero-output exhaustion surfaces as an error

The claim asserts `HardFailure` (budget exhausted, nothing accumulated)
raises for all four operations; only `generate_questions` raises
(rag_model.py line 1203), while the typed generators return a normal
`count = 0` batch (model_paper_generator.py lines 424–433). -/

/-- C4 (counterexample): with every attempt failing,
`generate_short_answer_questions` exhausts its 3-attempt budget with
zero questions and still returns a normal batch — no error reaches the
caller. -/
theorem c4_counterexample :
    generateShortAnswerQuestions true 1 noTextOutcomes =
      .ok ⟨"short_answer".data, [], 0, 1⟩ ∧
    (genLoop parseShortAnswerResponse setNumShort 1 3 noTextOutcomes).2 = 3 :=
  ⟨rfl, by decide⟩

/-- C4 (amended): zero accumulated questions surface as an error only
in `SinhalaRAGSystem.generate_questions`; the three typed generators
always return a batch once their precondition holds, and every
operation returns a batch normally whenever at least one question was
accumulated. -/
theorem c4_error_surface (numQ count : Nat) (ro : Nat → RagOutcome)
    (o : Nat → GenOutcome) :
    ((ragLoop numQ ro).1 = [] →
      ragGenerateQuestions numQ ro =
        .error "Failed to generate questions. Please try again.".data) ∧
    ((ragLoop numQ ro).1 ≠ [] →
      ragGenerateQuestions numQ ro = .ok ((ragLoop numQ ro).1.take numQ)) ∧
    (generateShortAnswerQuestions true count o =
      .ok ⟨"short_answer".data,
        (genLoop parseShortAnswerResponse setNumShort count 3 o).1,
        (genLoop parseShortAnswerResponse setNumShort count 3 o).1.length, count⟩) ∧
    (generateStructuredQuestions true count o =
      .ok ⟨"structured".data,
        (genLoop parseStructuredResponse setNumStruct count 4 o).1,
        (genLoop parseStructuredResponse setNumStruct count 4 o).1.length, count⟩) ∧
    (generateEssayQuestions true count o =
      .ok ⟨"essay_type".data,
        (genLoop parseEssayResponse setNumStruct count 4 o).1,
        (genLoop parseEssayResponse setNumStruct count 4 o).1.length, count⟩) := by
  refine ⟨?_, ?_, rfl, rfl, rfl⟩
  · intro hnil
    unfold ragGenerateQuestions
    rw [if_neg (by simpa using hnil)]
  · intro hne
    unfold ragGenerateQuestions
    rw [if_pos hne]

/-- Witness for `c4_error_surface`: with every attempt erroring,
`generate_questions` raises its hard-failure exception. -/
theorem c4_error_surface_witness :
    (ragLoop 1 errRagOutcomes).1 = [] ∧
    ragGenerateQuestions 1 errRagOutcomes =
      .error "Failed to generate questions. Please try again.".data :=
  ⟨by decide, (c4_error_surface 1 1 errRagOutcomes noTextOutcomes).1 (by decide)⟩

/-! ## C3 — shape-validity gates of the structured and essay parsers -/

/-- Generic fold lemma: if each region either leaves the accumulator
unchanged or appends one question satisfying `P`, then every parsed
question satisfies `P`. -/
theorem foldl_gate_pred {Q R : Type} (f : List Q → R → List Q) (P : Q → Prop)
    (hf : ∀ qs m, f qs m = qs ∨ ∃ q, P q ∧ f qs m = qs ++ [q]) :
    ∀ (l : List R) (init : List Q), (∀ q ∈ init, P q) →
      ∀ q ∈ l.foldl f init, P q := by
  intro l
  induction l with
  | nil => intro init hinit q hq; exact hinit q hq
  | cons m l ih =>
    intro init hinit q hq
    refine ih (f init m) ?_ q hq
    intro x hx
    rcases hf init m with h | ⟨q0, hq0, h⟩
    · rw [h] at hx; exact hinit x hx
    · rw [h] at hx
      rcases List.mem_append.1 hx with h' | h'
      · exact hinit x h'
      · rcases List.mem_singleton.1 h' with rfl; exact hq0

/-- The structured parser's per-region gate: a region contributes a
question only if it has a nonempty main context and at least two
sub-questions. -/
theorem parseStructRegion_gate (qs : List StructQ) (m : Str) :
    parseStructRegion qs m = qs ∨
    ∃ q, (q.question ≠ [] ∧ 2 ≤ q.sub_questions.length) ∧
      parseStructRegion qs m = qs ++ [q] := by
  unfold parseStructRegion
  split
  · next h => exact Or.inr ⟨_, ⟨h.1, h.2⟩, rfl⟩
  · exact Or.inl rfl

/-- The essay parser's per-region gate: a region contributes a question
only if its scenario is longer than 50 characters and it has at least
three sub-questions. -/
theorem parseEssayRegion_gate (qs : List StructQ) (m : Str) :
    parseEssayRegion qs m = qs ∨
    ∃ q, (50 < q.question.length ∧ 3 ≤ q.sub_questions.length) ∧
      parseEssayRegion qs m = qs ++ [q] := by
  unfold parseEssayRegion
  split
  · next h => exact Or.inr ⟨_, ⟨h.2.1, h.2.2⟩, rfl⟩
  · exact Or.inl rfl

/-- C3: every question emitted by `_parse_structured_response` has a
nonempty main context and at least 2 sub-questions; every question
emitted by `_parse_essay_response` has a scenario longer than 50
characters and at least 3 sub-questions; and the same holds of every
question in a batch returned by the corresponding generators, since
accumulation only renumbers parser output. -/
theorem c3_shape_validity :
    (∀ text q, q ∈ parseStructuredResponse text →
      q.question ≠ [] ∧ 2 ≤ q.sub_questions.length) ∧
    (∀ text q, q ∈ parseEssayResponse text →
      50 < q.question.length ∧ 3 ≤ q.sub_questions.length) ∧
    (∀ (count : Nat) (o : Nat → GenOutcome) b q,
      generateStructuredQuestions true count o = .ok b → q ∈ b.questions →
      q.question ≠ [] ∧ 2 ≤ q.sub_questions.length) ∧
    (∀ (count : Nat) (o : Nat → GenOutcome) b q,
      generateEssayQuestions true count o = .ok b → q ∈ b.questions →
      50 < q.question.length ∧ 3 ≤ q.sub_questions.length) := by
  have hstruct : ∀ text q, q ∈ parseStructuredResponse text →
      q.question ≠ [] ∧ 2 ≤ q.sub_questions.length := by
    intro text q hq
    exact foldl_gate_pred parseStructRegion _ parseStructRegion_gate _ []
      (fun _ h => absurd h (List.not_mem_nil _)) q hq
  have hessay : ∀ text q, q ∈ parseEssayResponse text →
      50 < q.question.length ∧ 3 ≤ q.sub_questions.length := by
    intro text q hq
    exact foldl_gate_pred parseEssayRegion _ parseEssayRegion_gate _ []
      (fun _ h => absurd h (List.not_mem_nil _)) q hq
  refine ⟨hstruct, hessay, ?_, ?_⟩
  · intro count o b q hok hq
    simp only [generateStructuredQuestions, Bool.true_eq_false, if_false] at hok
    cases hok
    refine genLoopAux_pred parseStructuredResponse setNumStruct count 4 o
      (fun q => q.question ≠ [] ∧ 2 ≤ q.sub_questions.length) hstruct
      (fun q n hp => hp) 4 [] 0 (fun _ h => absurd h (List.not_mem_nil _)) q hq
  · intro count o b q hok hq
    simp only [generateEssayQuestions, Bool.true_eq_false, if_false] at hok
    cases hok
    refine genLoopAux_pred parseEssayResponse setNumStruct count 4 o
      (fun q => 50 < q.question.length ∧ 3 ≤ q.sub_questions.length) hessay
      (fun q n hp => hp) 4 [] 0 (fun _ h => absurd h (List.not_mem_nil _)) q hq

set_option maxRecDepth 8192 in
/-- Witness for `c3_shape_validity` at a concrete parsed structured
question. -/
theorem c3_shape_validity_witness :
    structWrapParsed ∈ parseStructuredResponse structWrapText ∧
    (structWrapParsed.question ≠ [] ∧
      2 ≤ structWrapParsed.sub_questions.length) :=
  ⟨by decide, c3_shape_validity.1 structWrapText structWrapParsed (by decide)⟩

/-! ## C6 — fallback split when the START/END wrapper is absent -/

set_option maxRecDepth 8192 in
/-- C6: on responses with the shape wrapper removed but field markers
intact, each parser finds zero primary regions, takes the `---`
fallback-split path, and still returns exactly one valid question with
the expected content. -/
theorem c6_fallback_split :
    findBetween "QUESTION_START".data "QUESTION_END".data shortNoWrapText = [] ∧
    (parseShortAnswerResponse shortNoWrapText).map (fun q => q.question) =
      ["solve for x where 2x + 5 = 25".data] ∧
    findBetween "STRUCTURED_START".data "STRUCTURED_END".data structNoWrapText = [] ∧
    (parseStructuredResponse structNoWrapText).map
      (fun q => (q.question, q.sub_questions.length)) =
      [("a person deposits money in a bank".data, 2)] ∧
    findBetween "ESSAY_START".data "ESSAY_END".data essayNoWrapText = [] ∧
    (parseEssayResponse essayNoWrapText).map
      (fun q => (q.question.length, q.sub_questions.length)) = [(92, 3)] := by
  refine ⟨by decide, by decide, by decide, by decide, by decide, by decide⟩

/-! ## C7 — reference-question sampling -/

/-- Membership in the type-filtered dedup fold of
`_get_reference_questions`. -/
theorem candFold_mem (qt : Str) :
    ∀ (l cs : List RefQ) (x : RefQ),
      x ∈ l.foldl (fun cs q =>
        if q.qtype = some qt ∧ q ∉ cs then cs ++ [q] else cs) cs ↔
      x ∈ cs ∨ (x ∈ l ∧ x.qtype = some qt) := by
  intro l
  induction l with
  | nil => intro cs x; simp
  | cons q l ih =>
    intro cs x
    rw [List.foldl_cons, ih]
    by_cases h : q.qtype = some qt ∧ q ∉ cs
    · rw [if_pos h]
      constructor
      · rintro (hx | ⟨hxl, hq⟩)
        · rcases List.mem_append.1 hx with h1 | h1
          · exact Or.inl h1
          · rcases List.mem_singleton.1 h1 with rfl
            exact Or.inr ⟨List.mem_cons_self _ _, h.1⟩
        · exact Or.inr ⟨List.mem_cons_of_mem _ hxl, hq⟩
      · rintro (hx | ⟨hxl, hq⟩)
        · exact Or.inl (List.mem_append.2 (Or.inl hx))
        · rcases List.mem_cons.1 hxl with rfl | h1
          · exact Or.inl (List.mem_append.2 (Or.inr (List.mem_singleton.2 rfl)))
          · exact Or.inr ⟨h1, hq⟩
    · rw [if_neg h]
      constructor
      · rintro (hx | ⟨hxl, hq⟩)
        · exact Or.inl hx
        · exact Or.inr ⟨List.mem_cons_of_mem _ hxl, hq⟩
      · rintro (hx | ⟨hxl, hq⟩)
        · exact Or.inl hx
        · rcases List.mem_cons.1 hxl with rfl | h1
          · left
            by_contra hxc
            exact h ⟨hq, hxc⟩
          · exact Or.inr ⟨h1, hq⟩

/-- The type-filtered dedup fold preserves `Nodup`. -/
theorem candFold_nodup (qt : Str) :
    ∀ (l cs : List RefQ), cs.Nodup →
      (l.foldl (fun cs q =>
        if q.qtype = some qt ∧ q ∉ cs then cs ++ [q] else cs) cs).Nodup := by
  intro l
  induction l with
  | nil => intro cs h; exact h
  | cons q l ih =>
    intro cs h
    rw [List.foldl_cons]
    apply ih
    split
    · next hq =>
      rw [List.nodup_append]
      exact ⟨h, List.nodup_singleton _, fun a ha hb =>
        hq.2 (by rcases List.mem_singleton.1 hb with rfl; exact ha)⟩
    · exact h

/-- Membership in the by-topic candidate pool. -/
theorem topicalFold_mem (g : GenState) (qt : Str) :
    ∀ (topics : List Str) (cs : List RefQ) (x : RefQ),
      x ∈ topics.foldl (fun cs topic =>
        (dictGet g.past_paper_by_topic topic).foldl (fun cs q =>
          if q.qtype = some qt ∧ q ∉ cs then cs ++ [q] else cs) cs) cs ↔
      x ∈ cs ∨ ∃ t ∈ topics, x ∈ dictGet g.past_paper_by_topic t ∧
        x.qtype = some qt := by
  intro topics
  induction topics with
  | nil => intro cs x; simp
  | cons t ts ih =>
    intro cs x
    rw [List.foldl_cons, ih, candFold_mem]
    constructor
    · rintro ((hx | ⟨hxt, hq⟩) | ⟨t', ht', hx, hq⟩)
      · exact Or.inl hx
      · exact Or.inr ⟨t, List.mem_cons_self _ _, hxt, hq⟩
      · exact Or.inr ⟨t', List.mem_cons_of_mem _ ht', hx, hq⟩
    · rintro (hx | ⟨t', ht', hx, hq⟩)
      · exact Or.inl (Or.inl hx)
      · rcases List.mem_cons.1 ht' with rfl | h1
        · exact Or.inl (Or.inr ⟨hx, hq⟩)
        · exact Or.inr ⟨t', h1, hx, hq⟩

/-- The by-topic candidate pool has no duplicates. -/
theorem topicalFold_nodup (g : GenState) (qt : Str) :
    ∀ (topics : List Str) (cs : List RefQ), cs.Nodup →
      (topics.foldl (fun cs topic =>
        (dictGet g.past_paper_by_topic topic).foldl (fun cs q =>
          if q.qtype = some qt ∧ q ∉ cs then cs ++ [q] else cs) cs) cs).Nodup := by
  intro topics
  induction topics with
  | nil => intro cs h; exact h
  | cons t ts ih =>
    intro cs h
    rw [List.foldl_cons]
    exact ih _ (candFold_nodup qt _ cs h)

/-- The widening loop never grows the pool beyond the cap (when it
starts below it). -/
theorem widenLoop_le (cap : Nat) :
    ∀ (ts cs : List RefQ), cs.length < cap →
      (widenLoop cap ts cs).length ≤ cap := by
  intro ts
  induction ts with
  | nil => intro cs h; simpa [widenLoop] using Nat.le_of_lt h
  | cons q ts ih =>
    intro cs h
    rw [widenLoop]
    by_cases hq : q ∈ cs
    · rw [if_pos hq]
      split
      · exact Nat.le_of_lt h
      · exact ih cs h
    · rw [if_neg hq]
      split
      · next hcap => simp; omega
      · next hcap =>
        apply ih
        simp at hcap
        simp
        omega

/-- The widening loop only appends, and only by-type questions. -/
theorem widenLoop_append (cap : Nat) :
    ∀ (ts cs : List RefQ), ∃ add, widenLoop cap ts cs = cs ++ add ∧
      ∀ x ∈ add, x ∈ ts := by
  intro ts
  induction ts with
  | nil => intro cs; exact ⟨[], by simp [widenLoop], by simp⟩
  | cons q ts ih =>
    intro cs
    rw [widenLoop]
    by_cases hq : q ∈ cs
    · rw [if_pos hq]
      split
      · exact ⟨[], by simp, by simp⟩
      · rcases ih cs with ⟨add, heq, hmem⟩
        exact ⟨add, heq, fun x hx => List.mem_cons_of_mem _ (hmem x hx)⟩
    · rw [if_neg hq]
      split
      · exact ⟨[q], rfl, fun x hx => by
          rcases List.mem_singleton.1 hx with rfl; exact List.mem_cons_self _ _⟩
      · rcases ih (cs ++ [q]) with ⟨add, heq, hmem⟩
        refine ⟨q :: add, by rw [heq]; simp, ?_⟩
        intro x hx
        rcases List.mem_cons.1 hx with rfl | h1
        · exact List.mem_cons_self _ _
        · exact List.mem_cons_of_mem _ (hmem x h1)

/-- Unfolding of `refPool`. -/
theorem refPool_eq (g : GenState) (topics : List Str) (qt : Str) (count : Nat) :
    refPool g topics qt count =
      if (topicalCandidates g topics qt).length < count then
        widenLoop (count * 2) (dictGet g.past_paper_by_type qt)
          (topicalCandidates g topics qt)
      else topicalCandidates g topics qt := rfl

/-- Unfolding of `getReferenceQuestions`. -/
theorem getReferenceQuestions_eq (g : GenState)
    (sampler : Nat → List RefQ → List RefQ) (topics : List Str) (qt : Str)
    (count : Nat) :
    getReferenceQuestions g sampler topics qt count =
      if refPool g topics qt count ≠ [] then
        sampler (min count (refPool g topics qt count).length)
          (refPool g topics qt count)
      else [] := rfl

/-- C7: `_get_reference_questions` builds its candidate pool as the
duplicate-free union of by-topic matches filtered to the requested
type; when that pool is smaller than `count` it widens with by-type
questions, adding at most `count * 2` candidates; and it returns a
sample of size `min(count, pool size)` drawn from the pool — the empty
list when the pool is empty — with no failure path (the function is
total).  The sampler hypotheses are exactly what
`random.sample(candidates, k)` with `k ≤ len(candidates)` guarantees. -/
theorem c7_reference_sampling (g : GenState)
    (sampler : Nat → List RefQ → List RefQ) (topics : List Str) (qt : Str)
    (count : Nat)
    (hlen : ∀ k l, k ≤ l.length → (sampler k l).length = k)
    (hmem : ∀ k l x, x ∈ sampler k l → x ∈ l) :
    (topicalCandidates g topics qt).Nodup ∧
    (∀ x, x ∈ topicalCandidates g topics qt ↔
      ∃ t ∈ topics, x ∈ dictGet g.past_paper_by_topic t ∧
        x.qtype = some qt) ∧
    (count ≤ (topicalCandidates g topics qt).length →
      refPool g topics qt count = topicalCandidates g topics qt) ∧
    ((topicalCandidates g topics qt).length < count →
      ∃ add, refPool g topics qt count = topicalCandidates g topics qt ++ add ∧
        (∀ x ∈ add, x ∈ dictGet g.past_paper_by_type qt) ∧
        add.length ≤ count * 2) ∧
    (getReferenceQuestions g sampler topics qt count).length =
      min count (refPool g topics qt count).length ∧
    (refPool g topics qt count = [] →
      getReferenceQuestions g sampler topics qt count = []) ∧
    (∀ x ∈ getReferenceQuestions g sampler topics qt count,
      x ∈ refPool g topics qt count) := by
  refine ⟨topicalFold_nodup g qt topics [] (List.nodup_nil),
    fun x => by simpa using topicalFold_mem g qt topics [] x, ?_, ?_, ?_, ?_, ?_⟩
  · intro hge
    rw [refPool_eq, if_neg (by omega)]
  · intro hlt
    rw [refPool_eq, if_pos hlt]
    rcases widenLoop_append (count * 2) (dictGet g.past_paper_by_type qt)
      (topicalCandidates g topics qt) with ⟨add, heq, haddmem⟩
    refine ⟨add, heq, haddmem, ?_⟩
    have hle := widenLoop_le (count * 2) (dictGet g.past_paper_by_type qt)
      (topicalCandidates g topics qt) (by omega)
    rw [heq] at hle
    simp at hle
    omega
  · rw [getReferenceQuestions_eq]
    split
    · next hne =>
      exact hlen _ _ (Nat.min_le_right _ _)
    · next hne =>
      have : refPool g topics qt count = [] := by
        by_contra hc
        exact hne hc
      rw [this]
      simp
  · intro hempty
    rw [getReferenceQuestions_eq, if_neg (by simp [hempty])]
  · intro x hx
    rw [getReferenceQuestions_eq] at hx
    split at hx
    · exact hmem _ _ x hx
    · exact absurd hx (List.not_mem_nil x)

/-- Witness for `c7_reference_sampling` at a concrete two-question
corpus with the take-prefix sampler. -/
theorem c7_reference_sampling_witness :
    (topicalCandidates sampleGenState ["alg".data] "short_answer".data).Nodup ∧
    (getReferenceQuestions sampleGenState takeSampler ["alg".data]
        "short_answer".data 2).length =
      min 2 (refPool sampleGenState ["alg".data] "short_answer".data 2).length :=
  have hlen : ∀ k l, k ≤ l.length → (takeSampler k l).length = k :=
    fun k l h => by simp [takeSampler, List.length_take]; omega
  have hmem : ∀ k l x, x ∈ takeSampler k l → x ∈ l :=
    fun k l x hx => List.take_subset k l hx
  ⟨(c7_reference_sampling sampleGenState takeSampler ["alg".data]
      "short_answer".data 2 hlen hmem).1,
   (c7_reference_sampling sampleGenState takeSampler ["alg".data]
      "short_answer".data 2 hlen hmem).2.2.2.2.1⟩

/-! ## C8 — graceful corpus absence -/

/-- The by-topic pool over empty indexes is empty. -/
theorem foldl_fixed_acc {A B : Type} :
    ∀ (l : List B) (a : A), l.foldl (fun x _ => x) a = a := by
  intro l
  induction l with
  | nil => intro a; rfl
  | cons b l ih => intro a; exact ih a

theorem topicalCandidates_initial (topics : List Str) (qt : Str) :
    topicalCandidates initialGenState topics qt = [] := by
  have h : topicalCandidates initialGenState topics qt =
      topics.foldl (fun cs _ => cs) [] := rfl
  rw [h, foldl_fixed_acc]

/-- The full pool over empty indexes is empty. -/
theorem refPool_initial (topics : List Str) (qt : Str) (count : Nat) :
    refPool initialGenState topics qt count = [] := by
  rw [refPool_eq, topicalCandidates_initial]
  split
  · rfl
  · rfl

/-- C8: with every candidate path missing (including the hard-coded
fallback data path), `load_past_paper_questions` on a fresh instance
returns `False` without raising and leaves the fresh state — in
particular `past_papers_loaded = False` — unchanged, after which
`_get_reference_questions` returns the empty list for any topics, type
and count, again without raising. -/
theorem c8_missing_corpus (env : PyEnv) (jsonPath : Str)
    (hmiss : ∀ p ∈ possiblePaths env jsonPath, env.fileExists p = false) :
    loadPastPaperQuestions env initialGenState jsonPath = (false, initialGenState) ∧
    (∀ (sampler : Nat → List RefQ → List RefQ) (topics : List Str) (qt : Str)
        (count : Nat),
      getReferenceQuestions (loadPastPaperQuestions env initialGenState jsonPath).2
        sampler topics qt count = []) := by
  have hfind : firstExisting env jsonPath = none := by
    unfold firstExisting
    rw [List.find?_eq_none]
    intro p hp
    simp [hmiss p hp]
  have hload : loadPastPaperQuestions env initialGenState jsonPath =
      (false, initialGenState) := by
    unfold loadPastPaperQuestions
    rw [hfind]
    rfl
  refine ⟨hload, fun sampler topics qt count => ?_⟩
  rw [hload, getReferenceQuestions_eq, if_neg (by simp [refPool_initial])]

/-- Witness for `c8_missing_corpus` in the all-missing environment. -/
theorem c8_missing_corpus_witness :
    loadPastPaperQuestions envAllMissing initialGenState "/nonexistent/path".data =
      (false, initialGenState) ∧
    getReferenceQuestions
      (loadPastPaperQuestions envAllMissing initialGenState "/nonexistent/path".data).2
      takeSampler ["t".data] "short_answer".data 2 = [] :=
  have h := c8_missing_corpus envAllMissing "/nonexistent/path".data (by decide)
  ⟨h.1, h.2 takeSampler ["t".data] "short_answer".data 2⟩

/-! ## C9 — atomicity of corpus reload

The claim asserts every failing reload leaves the previously built
indexes unchanged.  The source clears the three indexes in place before
the record loop (lines 136–138), so an exception raised while
processing a record (for example a non-dict entry, on which `q.get`
raises `AttributeError`) is caught with the old corpus already lost and
a partially rebuilt index in place. -/

/-- C9 (counterexample): reloading a previously loaded one-question
corpus from a file whose `questions` list holds one good record
followed by a non-dict entry returns `False` — a failed load — yet the
question list and by-topic index now differ from the previously loaded
ones (the old corpus is lost and a partially rebuilt index is
observable). -/
theorem c9_counterexample :
    (loadPastPaperQuestions envBadRecord loadedGenState "p".data).1 = false ∧
    (loadPastPaperQuestions envBadRecord loadedGenState "p".data).2.past_paper_questions ≠
      loadedGenState.past_paper_questions ∧
    (loadPastPaperQuestions envBadRecord loadedGenState "p".data).2.past_paper_by_topic ≠
      loadedGenState.past_paper_by_topic := by
  refine ⟨by decide, by decide, by decide⟩

/-- A record-loop failure always reports `past_papers_loaded = False`. -/
theorem processRecords_false_loaded :
    ∀ (rs : List RawRecord) (g : GenState) (allTopics : List Str),
      (processRecords g allTopics rs).1 = false →
      (processRecords g allTopics rs).2.past_papers_loaded = false := by
  intro rs
  induction rs with
  | nil => intro g allTopics h; simp [processRecords] at h
  | cons r rs ih =>
    intro g allTopics h
    cases r with
    | dict q => exact ih _ _ h
    | notDict => rfl

/-- A failing `loadDoc` always reports `past_papers_loaded = False`. -/
theorem loadDoc_false_loaded (g : GenState) (d : Except Unit JsonDoc) :
    (loadDoc g d).1 = false → (loadDoc g d).2.past_papers_loaded = false := by
  cases d with
  | error e => intro _; rfl
  | ok doc =>
    cases doc with
    | nonObj => intro _; rfl
    | obj questionsOpt =>
      by_cases hq : questionsOpt.getD [] = []
      · intro _
        simp [loadDoc, hq]
      · intro h
        simp only [loadDoc, hq, if_false] at h ⊢
        exact processRecords_false_loaded _ _ _ h

/-- C9 (amended): a `load_past_paper_questions` call that fails before
the record loop — the file is missing, unreadable or unparseable, the
document is not an object, or its `questions` list is missing or empty —
returns `False` and leaves every index of the previous corpus
unchanged, only (re)setting `past_papers_loaded` to `False`; and every
failing load reports `past_papers_loaded = False`.  A failure *during*
record processing, however, leaves a cleared and partially rebuilt
index (see the counterexample): the reload is not atomic. -/
theorem c9_reload_preservation (env : PyEnv) (g : GenState) (jsonPath : Str) :
    (loadFailsEarly env jsonPath →
      loadPastPaperQuestions env g jsonPath =
        (false, { g with past_papers_loaded := false })) ∧
    ((loadPastPaperQuestions env g jsonPath).1 = false →
      (loadPastPaperQuestions env g jsonPath).2.past_papers_loaded = false) := by
  constructor
  · intro hearly
    rcases hearly with hfind | ⟨p, hp, hcase⟩
    · unfold loadPastPaperQuestions
      rw [hfind]
    · unfold loadPastPaperQuestions
      rw [hp]
      show loadDoc g (env.readJson p) = _
      rcases hcase with h | h | h | h <;> rw [h] <;> rfl
  · unfold loadPastPaperQuestions
    split
    · intro _; rfl
    · exact loadDoc_false_loaded g _

/-- Witness for `c9_reload_preservation`: an early-failing load in the
all-missing environment preserves the loaded corpus indexes. -/
theorem c9_reload_preservation_witness :
    loadFailsEarly envAllMissing "x".data ∧
    loadPastPaperQuestions envAllMissing loadedGenState "x".data =
      (false, { loadedGenState with past_papers_loaded := false }) :=
  ⟨Or.inl (by decide),
   (c9_reload_preservation envAllMissing loadedGenState "x".data).1
     (Or.inl (by decide))⟩
